import Mathlib

/-
Verification of the Correlation and Routing Engine of efb-telegram-master
against its natural-language specification.

The definitions below are a shallow embedding of the Python sources:
  efb_telegram_master/db.py              (DatabaseManager and its tables)
  efb_telegram_master/master_message.py  (MasterMessageProcessor)
  efb_telegram_master/slave_message.py   (SlaveMessageProcessor)

Python truthiness on optional strings (None and "" are falsy) is modelled
by pyBool; exceptions are modelled by Except String; database tables are
modelled by lists of rows in insertion order.
-/

/-- Decidable equality on Except, used to evaluate witnesses by decide. -/
instance {ε α : Type} [DecidableEq ε] [DecidableEq α] : DecidableEq (Except ε α) :=
  fun x y =>
    match x, y with
    | Except.error a, Except.error b =>
      if h : a = b then isTrue (by rw [h])
      else isFalse (by intro hc; cases hc; exact h rfl)
    | Except.error _, Except.ok _ => isFalse (by intro hc; cases hc)
    | Except.ok _, Except.error _ => isFalse (by intro hc; cases hc)
    | Except.ok a, Except.ok b =>
      if h : a = b then isTrue (by rw [h])
      else isFalse (by intro hc; cases hc; exact h rfl)

namespace ETM

/-- Truthiness of a Python optional-string value: None and "" are falsy. -/
def pyBool : Option String → Bool
| none => false
| some s => !(s == "")

/-- Row of the ChatAssoc table of db.py: one chat link. -/
structure ChatAssoc where
  master_uid : String
  slave_uid : String
deriving DecidableEq

/-- State of the ChatAssoc table, rows in insertion order. -/
abbrev ChatDB := List ChatAssoc

/-- Embedding of DatabaseManager.remove_chat_assoc (db.py lines 121-138).
Exactly one of the two arguments must be truthy, else a ValueError is
raised (the except clause catches only DoesNotExist, so the ValueError
propagates).  Returns the retained rows together with the deleted count. -/
def remove_chat_assoc (master_uid slave_uid : Option String) (db : ChatDB) :
    Except String (ChatDB × Nat) :=
  if pyBool master_uid == pyBool slave_uid then
    Except.error "ValueError: Only one parameter is to be provided."
  else if pyBool master_uid then
    let kept := db.filter (fun r => !(master_uid == some r.master_uid))
    Except.ok (kept, db.length - kept.length)
  else
    let kept := db.filter (fun r => !(slave_uid == some r.slave_uid))
    Except.ok (kept, db.length - kept.length)

/-- Embedding of DatabaseManager.add_chat_assoc (db.py lines 106-119).
When multiple_slave is false, all links sharing master_uid are removed
first; links sharing slave_uid are always removed; then the new row is
created.  Returns the table state after the create. -/
def add_chat_assoc (master_uid slave_uid : String) (multiple_slave : Bool)
    (db : ChatDB) : Except String ChatDB :=
  (if multiple_slave then Except.ok db
   else (remove_chat_assoc (some master_uid) none db).map (fun p => p.1)).bind
    (fun db1 =>
      ((remove_chat_assoc none (some slave_uid) db1).map (fun p => p.1)).map
        (fun db2 => db2 ++ [⟨master_uid, slave_uid⟩]))

/-- Embedding of DatabaseManager.get_chat_assoc (db.py lines 140-170).
Returns the list of counterpart identifiers. -/
def get_chat_assoc (master_uid slave_uid : Option String) (db : ChatDB) :
    Except String (List String) :=
  if pyBool master_uid == pyBool slave_uid then
    Except.error "ValueError: Only one parameter is to be provided."
  else if pyBool master_uid then
    Except.ok ((db.filter (fun r => master_uid == some r.master_uid)).map
      (fun r => r.slave_uid))
  else
    Except.ok ((db.filter (fun r => slave_uid == some r.slave_uid)).map
      (fun r => r.master_uid))

/-- Operations a caller can perform on the Chat Link Store: link with either
value of multiple_slave, and unlink by master or by slave. -/
inductive ChatOp where
| add (master_uid slave_uid : String) (multiple_slave : Bool)
| removeByMaster (master_uid : String)
| removeBySlave (slave_uid : String)
deriving DecidableEq

/-- State evolution of the ChatAssoc table under one operation.  A raised
ValueError propagates to the caller leaving the table as already mutated:
in add_chat_assoc the removal by master (when multiple_slave is false)
commits before the removal by slave is attempted. -/
def applyChatOp : ChatOp → ChatDB → ChatDB
| ChatOp.add m s true, db =>
  match remove_chat_assoc none (some s) db with
  | Except.error _ => db
  | Except.ok (d, _) => d ++ [⟨m, s⟩]
| ChatOp.add m s false, db =>
  match remove_chat_assoc (some m) none db with
  | Except.error _ => db
  | Except.ok (d1, _) =>
    match remove_chat_assoc none (some s) d1 with
    | Except.error _ => d1
    | Except.ok (d2, _) => d2 ++ [⟨m, s⟩]
| ChatOp.removeByMaster m, db =>
  match remove_chat_assoc (some m) none db with
  | Except.error _ => db
  | Except.ok (d, _) => d
| ChatOp.removeBySlave s, db =>
  match remove_chat_assoc none (some s) db with
  | Except.error _ => db
  | Except.ok (d, _) => d

/-- State of the table after a sequence of operations. -/
def applyChatOps (ops : List ChatOp) (db : ChatDB) : ChatDB :=
  ops.foldl (fun d op => applyChatOp op d) db

/-- Number of links whose slave_uid is s, counted the way get_chat_assoc
filters them. -/
def slaveLinkCount (s : String) (db : ChatDB) : Nat :=
  (db.filter (fun r => some s == some r.slave_uid)).length

/-- Slave-side uniqueness: every slave conversation is linked to at most
one master conversation. -/
def slaveUnique (db : ChatDB) : Prop :=
  ∀ s : String, slaveLinkCount s db ≤ 1

lemma filter_bnot_filter_nil {α : Type} (p : α → Bool) (l : List α) :
    (l.filter (fun a => !(p a))).filter p = [] := by
  rw [List.filter_eq_nil_iff]
  intro a ha
  rcases List.mem_filter.mp ha with ⟨_, hnp⟩
  simp at hnp
  simp [hnp]

lemma filter_bnot_filter_filter_nil {α : Type} (p q : α → Bool) (l : List α) :
    (((l.filter (fun a => !(p a))).filter q).filter p) = [] := by
  rw [List.filter_eq_nil_iff]
  intro a ha
  rcases List.mem_filter.mp ha with ⟨ha', _⟩
  rcases List.mem_filter.mp ha' with ⟨_, hnp⟩
  simp at hnp
  simp [hnp]

lemma slaveLinkCount_filter_le (s : String) (p : ChatAssoc → Bool) (db : ChatDB) :
    slaveLinkCount s (db.filter p) ≤ slaveLinkCount s db := by
  exact ((List.filter_sublist db).filter _).length_le

lemma remove_by_master_ok (m : String) (db : ChatDB) (hm : m ≠ "") :
    remove_chat_assoc (some m) none db =
      Except.ok (db.filter (fun r => !(some m == some r.master_uid)),
        db.length - (db.filter (fun r => !(some m == some r.master_uid))).length) := by
  simp [remove_chat_assoc, pyBool, hm]

lemma remove_by_slave_ok (s : String) (db : ChatDB) (hs : s ≠ "") :
    remove_chat_assoc none (some s) db =
      Except.ok (db.filter (fun r => !(some s == some r.slave_uid)),
        db.length - (db.filter (fun r => !(some s == some r.slave_uid))).length) := by
  simp [remove_chat_assoc, pyBool, hs]

lemma add_chat_assoc_false_eq (m s : String) (db : ChatDB)
    (hm : m ≠ "") (hs : s ≠ "") :
    add_chat_assoc m s false db = Except.ok
      (((db.filter (fun r => !(some m == some r.master_uid))).filter
          (fun r => !(some s == some r.slave_uid))) ++ [⟨m, s⟩]) := by
  simp [add_chat_assoc, remove_by_master_ok m db hm, Except.map, Except.bind,
    remove_by_slave_ok s _ hs]

lemma add_chat_assoc_true_eq (m s : String) (db : ChatDB) (hs : s ≠ "") :
    add_chat_assoc m s true db = Except.ok
      ((db.filter (fun r => !(some s == some r.slave_uid))) ++ [⟨m, s⟩]) := by
  simp [add_chat_assoc, Except.map, Except.bind, remove_by_slave_ok s _ hs]

lemma get_chat_assoc_master_eq (m : String) (db : ChatDB) (hm : m ≠ "") :
    get_chat_assoc (some m) none db =
      Except.ok ((db.filter (fun r => some m == some r.master_uid)).map
        (fun r => r.slave_uid)) := by
  simp [get_chat_assoc, pyBool, hm]


lemma filter_slave_remove_nil (s : String) (l : ChatDB) :
    (l.filter (fun r => !(some s == some r.slave_uid))).filter
      (fun r => some s == some r.slave_uid) = [] := by
  rw [List.filter_eq_nil_iff]
  intro a ha
  have hb := (List.mem_filter.mp ha).2
  simp at hb ⊢
  exact hb

lemma applyChatOp_add_true_eq (m s : String) (db : ChatDB) (hs : s ≠ "") :
    applyChatOp (ChatOp.add m s true) db =
      (db.filter (fun r => !(some s == some r.slave_uid))) ++ [⟨m, s⟩] := by
  have e1 := remove_by_slave_ok s db hs
  simp only [applyChatOp, e1]

lemma applyChatOp_add_false_eq (m s : String) (db : ChatDB)
    (hm : m ≠ "") (hs : s ≠ "") :
    applyChatOp (ChatOp.add m s false) db =
      ((db.filter (fun r => !(some m == some r.master_uid))).filter
        (fun r => !(some s == some r.slave_uid))) ++ [⟨m, s⟩] := by
  have e1 := remove_by_master_ok m db hm
  have e2 := remove_by_slave_ok s
    (db.filter (fun r => !(some m == some r.master_uid))) hs
  simp only [applyChatOp, e1, e2]

lemma remove_by_slave_empty_err (d : ChatDB) :
    remove_chat_assoc none (some "") d =
      Except.error "ValueError: Only one parameter is to be provided." := by
  simp [remove_chat_assoc, pyBool]

lemma remove_by_master_empty_err (d : ChatDB) :
    remove_chat_assoc (some "") none d =
      Except.error "ValueError: Only one parameter is to be provided." := by
  simp [remove_chat_assoc, pyBool]

lemma applyChatOp_add_false_empty_slave (m : String) (db : ChatDB) (hm : m ≠ "") :
    applyChatOp (ChatOp.add m "" false) db =
      db.filter (fun r => !(some m == some r.master_uid)) := by
  have e1 := remove_by_master_ok m db hm
  have e2 := remove_by_slave_empty_err
    (db.filter (fun r => !(some m == some r.master_uid)))
  simp only [applyChatOp, e1, e2]

lemma applyChatOp_removeM_eq (m : String) (db : ChatDB) (hm : m ≠ "") :
    applyChatOp (ChatOp.removeByMaster m) db =
      db.filter (fun r => !(some m == some r.master_uid)) := by
  have e1 := remove_by_master_ok m db hm
  simp only [applyChatOp, e1]

lemma applyChatOp_removeS_eq (s : String) (db : ChatDB) (hs : s ≠ "") :
    applyChatOp (ChatOp.removeBySlave s) db =
      db.filter (fun r => !(some s == some r.slave_uid)) := by
  have e1 := remove_by_slave_ok s db hs
  simp only [applyChatOp, e1]

lemma get_master_after_add_false (m s : String) (db : ChatDB)
    (hm : m ≠ "") (hs : s ≠ "") :
    (add_chat_assoc m s false db).bind (fun d => get_chat_assoc (some m) none d) =
      Except.ok [s] := by
  rw [add_chat_assoc_false_eq m s db hm hs]
  show get_chat_assoc (some m) none _ = Except.ok [s]
  rw [get_chat_assoc_master_eq m _ hm]
  rw [List.filter_append]
  have h1 : (((db.filter (fun r => !(some m == some r.master_uid))).filter
      (fun r => !(some s == some r.slave_uid))).filter
      (fun r => some m == some r.master_uid)) = [] := by
    rw [List.filter_eq_nil_iff]
    intro a ha
    have ha2 := List.mem_of_mem_filter ha
    have hb := (List.mem_filter.mp ha2).2
    simp at hb ⊢
    exact hb
  rw [h1]
  simp

/-- C1: linking a master conversation twice with allow_multiple false leaves
exactly the second slave link: the second add_chat_assoc first deletes every
link sharing the master_uid before inserting, so get_chat_assoc by master_uid
returns exactly the second slave_uid, whatever the initial table contents. -/
theorem add_chat_assoc_single_link_replaces (db : ChatDB) (m s1 s2 : String)
    (hm : m ≠ "") (h1 : s1 ≠ "") (h2 : s2 ≠ "") :
    ((add_chat_assoc m s1 false db).bind (fun d => add_chat_assoc m s2 false d)).bind
      (fun d => get_chat_assoc (some m) none d) = Except.ok [s2] := by
  rw [add_chat_assoc_false_eq m s1 db hm h1]
  show (add_chat_assoc m s2 false _).bind (fun d => get_chat_assoc (some m) none d) =
    Except.ok [s2]
  exact get_master_after_add_false m s2 _ hm h2

/-- Witness for C1 at a concrete input. -/
theorem add_chat_assoc_single_link_replaces_witness :
    ((add_chat_assoc "100" "wa.200" false []).bind
        (fun d => add_chat_assoc "100" "tg.300" false d)).bind
      (fun d => get_chat_assoc (some "100") none d) = Except.ok ["tg.300"] :=
  add_chat_assoc_single_link_replaces [] "100" "wa.200" "tg.300"
    (by decide) (by decide) (by decide)

lemma slaveLinkCount_insert_le (t s0 m0 : String) (dbx : ChatDB)
    (hx : slaveLinkCount t dbx ≤ 1) :
    slaveLinkCount t ((dbx.filter (fun r => !(some s0 == some r.slave_uid)))
      ++ [⟨m0, s0⟩]) ≤ 1 := by
  unfold slaveLinkCount
  rw [List.filter_append, List.length_append]
  by_cases hss : t = s0
  · subst hss
    rw [filter_slave_remove_nil t dbx]
    simp
  · have h2 : (([⟨m0, s0⟩] : ChatDB).filter
        (fun r => some t == some r.slave_uid)) = [] := by
      simp [hss]
    rw [h2]
    have h1 : ((dbx.filter (fun r => !(some s0 == some r.slave_uid))).filter
        (fun r => some t == some r.slave_uid)).length ≤ slaveLinkCount t dbx :=
      ((List.filter_sublist dbx).filter _).length_le
    simpa using le_trans h1 hx

lemma applyChatOp_slaveUnique (op : ChatOp) (db : ChatDB) (h : slaveUnique db) :
    slaveUnique (applyChatOp op db) := by
  cases op with
  | add m s mult =>
    cases mult with
    | true =>
      by_cases hs : s = ""
      · subst hs
        simp only [applyChatOp, remove_by_slave_empty_err]
        exact h
      · intro t
        rw [applyChatOp_add_true_eq m s db hs]
        exact slaveLinkCount_insert_le t s m db (h t)
    | false =>
      by_cases hm : m = ""
      · subst hm
        simp only [applyChatOp, remove_by_master_empty_err]
        exact h
      · by_cases hs : s = ""
        · subst hs
          intro t
          rw [applyChatOp_add_false_empty_slave m db hm]
          exact le_trans (slaveLinkCount_filter_le t _ db) (h t)
        · intro t
          rw [applyChatOp_add_false_eq m s db hm hs]
          exact slaveLinkCount_insert_le t s m _
            (le_trans (slaveLinkCount_filter_le t _ db) (h t))
  | removeByMaster m =>
    by_cases hm : m = ""
    · subst hm
      simp only [applyChatOp, remove_by_master_empty_err]
      exact h
    · intro t
      rw [applyChatOp_removeM_eq m db hm]
      exact le_trans (slaveLinkCount_filter_le t _ db) (h t)
  | removeBySlave s =>
    by_cases hs : s = ""
    · subst hs
      simp only [applyChatOp, remove_by_slave_empty_err]
      exact h
    · intro t
      rw [applyChatOp_removeS_eq s db hs]
      exact le_trans (slaveLinkCount_filter_le t _ db) (h t)

lemma applyChatOps_slaveUnique (ops : List ChatOp) (db : ChatDB)
    (h : slaveUnique db) : slaveUnique (applyChatOps ops db) := by
  induction ops generalizing db with
  | nil => exact h
  | cons op rest ih =>
    exact ih (applyChatOp op db) (applyChatOp_slaveUnique op db h)

/-- C2: slave-side uniqueness is an invariant of the Chat Link Store: after
any sequence of link and unlink operations from the empty table, a lookup by
slave_uid returns at most one master; and two links on the same master with
multiple_slave true and distinct slaves leave both links on that master. -/
theorem chat_assoc_slave_unique_and_multi_link :
    (∀ (ops : List ChatOp) (s : String) (l : List String),
        get_chat_assoc none (some s) (applyChatOps ops []) = Except.ok l →
        l.length ≤ 1)
    ∧ (∀ m s1 s2 : String, m ≠ "" → s1 ≠ "" → s2 ≠ "" → s1 ≠ s2 →
        ((add_chat_assoc m s1 true []).bind (fun d => add_chat_assoc m s2 true d)).bind
          (fun d => get_chat_assoc (some m) none d) = Except.ok [s1, s2]) := by
  constructor
  · intro ops s l hget
    by_cases hs : s = ""
    · subst hs
      simp [get_chat_assoc, pyBool] at hget
    · have huniq := applyChatOps_slaveUnique ops [] (fun _ => by simp [slaveLinkCount])
      have hgv : get_chat_assoc none (some s) (applyChatOps ops []) =
          Except.ok (((applyChatOps ops []).filter
            (fun r => some s == some r.slave_uid)).map (fun r => r.master_uid)) := by
        simp [get_chat_assoc, pyBool, hs]
      rw [hgv] at hget
      have hl := congrArg List.length (Except.ok.inj hget)
      rw [List.length_map] at hl
      rw [← hl]
      exact huniq s
  · intro m s1 s2 hm h1 h2 h12
    have ha1 : add_chat_assoc m s1 true ([] : ChatDB) = Except.ok [⟨m, s1⟩] := by
      rw [add_chat_assoc_true_eq m s1 [] h1]
      rfl
    rw [ha1]
    show (add_chat_assoc m s2 true [⟨m, s1⟩]).bind
      (fun d => get_chat_assoc (some m) none d) = Except.ok [s1, s2]
    have hne : (some s2 == some (⟨m, s1⟩ : ChatAssoc).slave_uid) = false := by
      simp
      exact fun hc => h12 hc.symm
    have ha2 : add_chat_assoc m s2 true ([⟨m, s1⟩] : ChatDB) =
        Except.ok [⟨m, s1⟩, ⟨m, s2⟩] := by
      rw [add_chat_assoc_true_eq m s2 _ h2]
      rw [List.filter_singleton]
      rw [hne]
      rfl
    rw [ha2]
    show get_chat_assoc (some m) none [⟨m, s1⟩, ⟨m, s2⟩] = Except.ok [s1, s2]
    rw [get_chat_assoc_master_eq m _ hm]
    simp

/-- Witness for C2 at concrete inputs. -/
theorem chat_assoc_slave_unique_and_multi_link_witness :
    ((["100"] : List String).length ≤ 1)
    ∧ ((add_chat_assoc "100" "a.1" true []).bind
          (fun d => add_chat_assoc "100" "b.2" true d)).bind
        (fun d => get_chat_assoc (some "100") none d) = Except.ok ["a.1", "b.2"] :=
  ⟨chat_assoc_slave_unique_and_multi_link.1 [ChatOp.add "100" "a.1" true] "a.1"
      ["100"] (by decide),
   chat_assoc_slave_unique_and_multi_link.2 "100" "a.1" "b.2"
      (by decide) (by decide) (by decide) (by decide)⟩

/-- Row of the MsgLog table of db.py (lines 25-39).  Fields whose columns
are declared with null = True are Option String; the remaining text columns
are String.  time is modelled as a Nat timestamp (DateTimeField default
datetime.datetime.now). -/
structure MsgLog where
  master_msg_id : String
  master_msg_id_alt : Option String
  slave_message_id : String
  text : String
  slave_origin_uid : String
  slave_origin_display_name : Option String
  slave_member_uid : Option String
  slave_member_display_name : Option String
  media_type : Option String
  mime : Option String
  file_id : Option String
  msg_type : String
  sent_to : String
  time : Nat
deriving DecidableEq

/-- Keyword arguments of DatabaseManager.add_msg_log (db.py lines 211-224):
each kwargs.get defaults to None, modelled as none. -/
structure MsgLogKwargs where
  master_msg_id : Option String := none
  text : Option String := none
  slave_origin_uid : Option String := none
  msg_type : Option String := none
  sent_to : Option String := none
  slave_origin_display_name : Option String := none
  slave_member_uid : Option String := none
  slave_member_display_name : Option String := none
  slave_message_id : Option String := none
  master_msg_id_alt : Option String := none
  media_type : Option String := none
  file_id : Option String := none
  mime : Option String := none
  update : Bool := false
deriving DecidableEq

/-- Python coalescing new or old on a non-null column: the new value wins
exactly when it is truthy (not None and not ""). -/
def pyOrS (new : Option String) (old : String) : String :=
  match new with
  | none => old
  | some v => if v == "" then old else v

/-- Python coalescing new or old on a nullable column. -/
def pyOrO (new old : Option String) : Option String :=
  if pyBool new then new else old

/-- Field merge applied by the update branch of add_msg_log (db.py lines
229-241): every field is coalesced with pyOr except master_msg_id_alt,
which is assigned the new value unconditionally (line 238 has no coalescing). -/
def mergeMsgLog (kw : MsgLogKwargs) (r : MsgLog) : MsgLog :=
  { r with
    text := pyOrS kw.text r.text
    msg_type := pyOrS kw.msg_type r.msg_type
    sent_to := pyOrS kw.sent_to r.sent_to
    slave_origin_uid := pyOrS kw.slave_origin_uid r.slave_origin_uid
    slave_origin_display_name :=
      pyOrO kw.slave_origin_display_name r.slave_origin_display_name
    slave_member_uid := pyOrO kw.slave_member_uid r.slave_member_uid
    slave_member_display_name :=
      pyOrO kw.slave_member_display_name r.slave_member_display_name
    slave_message_id := pyOrS kw.slave_message_id r.slave_message_id
    master_msg_id_alt := kw.master_msg_id_alt
    media_type := pyOrO kw.media_type r.media_type
    file_id := pyOrO kw.file_id r.file_id
    mime := pyOrO kw.mime r.mime }

/-- Embedding of DatabaseManager.add_msg_log (db.py lines 187-258).
Returns the table state and the returned row.  With a falsy
slave_message_id nothing is stored and None is returned; with update True
the row is fetched by master_msg_id (MsgLog.get raises DoesNotExist when
absent, uncaught here), merged and saved; otherwise a fresh row is created
with time defaulting to now. -/
def add_msg_log (kw : MsgLogKwargs) (db : List MsgLog) (now : Nat) :
    Except String (List MsgLog × Option MsgLog) :=
  if !(pyBool kw.slave_message_id) then Except.ok (db, none)
  else if kw.update then
    match db.find? (fun r => kw.master_msg_id == some r.master_msg_id) with
    | none => Except.error "DoesNotExist: MsgLog"
    | some r =>
      let r' := mergeMsgLog kw r
      Except.ok
        (db.map (fun x => if x.master_msg_id == r.master_msg_id then r' else x),
         some r')
  else
    let row : MsgLog :=
      { master_msg_id := kw.master_msg_id.getD ""
        master_msg_id_alt := kw.master_msg_id_alt
        slave_message_id := kw.slave_message_id.getD ""
        text := kw.text.getD ""
        slave_origin_uid := kw.slave_origin_uid.getD ""
        slave_origin_display_name := kw.slave_origin_display_name
        slave_member_uid := kw.slave_member_uid
        slave_member_display_name := kw.slave_member_display_name
        media_type := kw.media_type
        mime := kw.mime
        file_id := kw.file_id
        msg_type := kw.msg_type.getD ""
        sent_to := kw.sent_to.getD ""
        time := now }
    Except.ok (db ++ [row], some row)

/-- Table state after add_msg_log: a raised DoesNotExist propagates before
any mutation, leaving the table unchanged. -/
def add_msg_log_state (kw : MsgLogKwargs) (db : List MsgLog) (now : Nat) :
    List MsgLog :=
  match add_msg_log kw db now with
  | Except.error _ => db
  | Except.ok (d, _) => d

/-- First row of a query ordered by time descending (order_by time desc,
first): the row with the greatest timestamp, earliest inserted on ties. -/
def mostRecent (l : List MsgLog) : Option MsgLog :=
  l.foldl
    (fun acc r =>
      match acc with
      | none => some r
      | some a => if r.time > a.time then some r else acc)
    none

/-- Embedding of DatabaseManager.get_msg_log (db.py lines 260-288):
argument validation raises ValueError on a bad combination, otherwise the
most recent matching row, or none. -/
def get_msg_log (master_msg_id slave_msg_id slave_origin_uid : Option String)
    (db : List MsgLog) : Except String (Option MsgLog) :=
  if (pyBool master_msg_id && (pyBool slave_msg_id || pyBool slave_origin_uid))
      || !(pyBool master_msg_id || pyBool slave_msg_id || pyBool slave_origin_uid) then
    Except.error "ValueError: master_msg_id and slave_msg_id is mutual exclusive"
  else if !(pyBool master_msg_id) && !(pyBool slave_msg_id && pyBool slave_origin_uid) then
    Except.error "ValueError: slave_msg_id and slave_origin_uid must exists together."
  else if pyBool master_msg_id then
    Except.ok (mostRecent (db.filter
      (fun r => master_msg_id == some r.master_msg_id)))
  else
    Except.ok (mostRecent (db.filter
      (fun r => slave_msg_id == some r.slave_message_id
        && slave_origin_uid == some r.slave_origin_uid)))

lemma pyOrS_falsy (new : Option String) (old : String)
    (h : pyBool new = false) : pyOrS new old = old := by
  cases new with
  | none => rfl
  | some v =>
    simp [pyBool] at h
    simp [pyOrS, h]

lemma pyOrS_truthy (new : Option String) (old : String)
    (h : pyBool new = true) : pyOrS new old = new.getD "" := by
  cases new with
  | none => simp [pyBool] at h
  | some v =>
    simp [pyBool] at h
    simp [pyOrS, h]

lemma pyOrO_falsy (new old : Option String)
    (h : pyBool new = false) : pyOrO new old = old := by
  simp [pyOrO, h]

lemma pyOrO_truthy (new old : Option String)
    (h : pyBool new = true) : pyOrO new old = new := by
  simp [pyOrO, h]

/-- Stored message record used as concrete input: it carries a non-null
master_msg_id_alt so a clobbering update is observable. -/
def sampleMsgRow : MsgLog :=
  { master_msg_id := "1.5"
    master_msg_id_alt := some "1.99"
    slave_message_id := "s.1"
    text := "hi"
    slave_origin_uid := "wa.200"
    slave_origin_display_name := none
    slave_member_uid := none
    slave_member_display_name := none
    media_type := none
    mime := none
    file_id := none
    msg_type := "Text"
    sent_to := "slave"
    time := 1 }

/-- Update call with a non-empty slave_message_id and no master_msg_id_alt
argument (kwargs.get defaults it to None). -/
def sampleUpdateKwargs : MsgLogKwargs :=
  { master_msg_id := some "1.5"
    slave_message_id := some "s.2"
    update := true }

/-- C3 counterexample: updating the record of sampleMsgRow with kwargs whose
master_msg_id_alt is None (empty) overwrites the stored alt value with None
instead of keeping some "1.99" — db.py line 238 assigns the field without
coalescing, so the claim that every field follows last-non-null-wins is
false at this input. -/
theorem add_msg_log_update_clobbers_alt :
    (add_msg_log sampleUpdateKwargs [sampleMsgRow] 2).map
        (fun p => p.2.map (fun r => r.master_msg_id_alt))
      = Except.ok (some none)
    ∧ (Except.ok (some none) : Except String (Option (Option String)))
      ≠ Except.ok (some (some "1.99")) := by
  constructor
  · decide
  · decide

/-- C3 (amended): in the update branch of add_msg_log, every field except
master_msg_id_alt is overwritten only when the new value is non-empty and
keeps the stored value otherwise, while master_msg_id_alt is assigned the
new value unconditionally (a falsy new value clears the stored one). -/
theorem add_msg_log_update_merge (kw : MsgLogKwargs) (db : List MsgLog)
    (now : Nat) (r : MsgLog)
    (hu : kw.update = true) (hs : pyBool kw.slave_message_id = true)
    (hf : db.find? (fun x => kw.master_msg_id == some x.master_msg_id) = some r) :
    add_msg_log kw db now = Except.ok
      (db.map (fun x => if x.master_msg_id == r.master_msg_id
          then mergeMsgLog kw r else x),
        some (mergeMsgLog kw r))
    ∧ (pyBool kw.text = false → (mergeMsgLog kw r).text = r.text)
    ∧ (pyBool kw.msg_type = false → (mergeMsgLog kw r).msg_type = r.msg_type)
    ∧ (pyBool kw.sent_to = false → (mergeMsgLog kw r).sent_to = r.sent_to)
    ∧ (pyBool kw.slave_origin_uid = false →
        (mergeMsgLog kw r).slave_origin_uid = r.slave_origin_uid)
    ∧ (pyBool kw.slave_origin_display_name = false →
        (mergeMsgLog kw r).slave_origin_display_name = r.slave_origin_display_name)
    ∧ (pyBool kw.slave_member_uid = false →
        (mergeMsgLog kw r).slave_member_uid = r.slave_member_uid)
    ∧ (pyBool kw.slave_member_display_name = false →
        (mergeMsgLog kw r).slave_member_display_name = r.slave_member_display_name)
    ∧ (pyBool kw.media_type = false →
        (mergeMsgLog kw r).media_type = r.media_type)
    ∧ (pyBool kw.file_id = false → (mergeMsgLog kw r).file_id = r.file_id)
    ∧ (pyBool kw.mime = false → (mergeMsgLog kw r).mime = r.mime)
    ∧ (mergeMsgLog kw r).master_msg_id = r.master_msg_id
    ∧ (mergeMsgLog kw r).time = r.time
    ∧ (mergeMsgLog kw r).master_msg_id_alt = kw.master_msg_id_alt := by
  refine ⟨?_, fun h => pyOrS_falsy _ _ h, fun h => pyOrS_falsy _ _ h,
    fun h => pyOrS_falsy _ _ h, fun h => pyOrS_falsy _ _ h,
    fun h => pyOrO_falsy _ _ h, fun h => pyOrO_falsy _ _ h,
    fun h => pyOrO_falsy _ _ h, fun h => pyOrO_falsy _ _ h,
    fun h => pyOrO_falsy _ _ h, fun h => pyOrO_falsy _ _ h, rfl, rfl, rfl⟩
  simp only [add_msg_log, hs, hu, hf, Bool.not_true, if_true, if_false,
    Bool.false_eq_true, ite_false, ite_true]

/-- Witness for the amended C3 theorem at the concrete input of the
counterexample. -/
theorem add_msg_log_update_merge_witness :
    add_msg_log sampleUpdateKwargs [sampleMsgRow] 2 = Except.ok
      (([sampleMsgRow]).map
        (fun x => if x.master_msg_id == sampleMsgRow.master_msg_id
          then mergeMsgLog sampleUpdateKwargs sampleMsgRow else x),
        some (mergeMsgLog sampleUpdateKwargs sampleMsgRow))
    ∧ (mergeMsgLog sampleUpdateKwargs sampleMsgRow).master_msg_id_alt
      = sampleUpdateKwargs.master_msg_id_alt :=
  ⟨(add_msg_log_update_merge sampleUpdateKwargs [sampleMsgRow] 2 sampleMsgRow
      rfl (by decide) (by decide)).1,
   (add_msg_log_update_merge sampleUpdateKwargs [sampleMsgRow] 2 sampleMsgRow
      rfl (by decide) (by decide)).2.2.2.2.2.2.2.2.2.2.2.2.2⟩

/-- C10: calling add_msg_log with update True, a truthy slave_message_id and
a master_msg_id matching no stored row raises DoesNotExist and mutates
nothing — unlike get_msg_log, which returns None on a missing row. -/
theorem add_msg_log_update_missing_raises (kw : MsgLogKwargs) (db : List MsgLog)
    (now : Nat)
    (hu : kw.update = true) (hs : pyBool kw.slave_message_id = true)
    (hf : db.find? (fun r => kw.master_msg_id == some r.master_msg_id) = none) :
    add_msg_log kw db now = Except.error "DoesNotExist: MsgLog"
    ∧ add_msg_log_state kw db now = db
    ∧ (∀ mid : String, mid ≠ "" → (∀ r ∈ db, mid ≠ r.master_msg_id) →
        get_msg_log (some mid) none none db = Except.ok none) := by
  have herr : add_msg_log kw db now = Except.error "DoesNotExist: MsgLog" := by
    simp only [add_msg_log, hs, hu, hf, Bool.not_true, if_true, if_false,
      Bool.false_eq_true, ite_false, ite_true]
  refine ⟨herr, ?_, ?_⟩
  · simp only [add_msg_log_state, herr]
  · intro mid hmid hnone
    have hfil : db.filter (fun r => mid == r.master_msg_id) = [] := by
      rw [List.filter_eq_nil_iff]
      intro a ha
      simp
      exact hnone a ha
    simp [get_msg_log, pyBool, hmid, hfil, mostRecent]

/-- Witness for C10 at a concrete input. -/
theorem add_msg_log_update_missing_raises_witness :
    add_msg_log
        { master_msg_id := some "9.9", slave_message_id := some "s.9",
          update := true }
        [sampleMsgRow] 0 = Except.error "DoesNotExist: MsgLog"
    ∧ add_msg_log_state
        { master_msg_id := some "9.9", slave_message_id := some "s.9",
          update := true }
        [sampleMsgRow] 0 = [sampleMsgRow]
    ∧ get_msg_log (some "9.9") none none [sampleMsgRow] = Except.ok none := by
  have h := add_msg_log_update_missing_raises
    { master_msg_id := some "9.9", slave_message_id := some "s.9",
      update := true }
    [sampleMsgRow] 0 rfl (by decide) (by decide)
  exact ⟨h.1, h.2.1, h.2.2 "9.9" (by decide) (by decide)⟩

/-- Modelled from the spec: db.FAIL_FLAG, the pending sentinel stored as
slave_message_id for a relay whose slave-side outcome is unknown (spec
section 3 gives the shape of the sentinel).  The constant itself lives in a
part of db.py not among the available files; master_message.py line 145
compares slave_message_id against it by equality, which is all the claims
need, so its exact text is irrelevant. -/
def FAIL_FLAG : String := "__fail__"

/-- Modelled from the spec: utils.message_id_to_str.  The utils module is
not among the available files; db.py line 194 documents the format of
master_msg_id as chat_id.msg_id. -/
def message_id_to_str (chat_id msg_id : String) : String :=
  chat_id ++ "." ++ msg_id

/-- Modelled from the spec: utils.chat_id_to_str.  The utils module is not
among the available files; db.py line 113 documents the composite format
channel_id.chat_id, and master_message.py calls it with the channel id and
the Telegram chat id. -/
def chat_id_to_str (channel_id chat_id : String) : String :=
  channel_id ++ "." ++ chat_id

/-- Recent-Destination Cache state: master chat id to resolved slave uid. -/
abbrev DestCache := List (String × String)

/-- Modelled from the spec: ChatDestinationCache.get (the
chat_destination_cache module is not among the available files; spec
section 3 describes a per-master-conversation map to the last resolved
slave destination). -/
def chat_dest_get (cache : DestCache) (key : String) : Option String :=
  (cache.find? (fun e => e.1 == key)).map (fun e => e.2)

/-- Modelled from the spec: ChatDestinationCache.set. -/
def chat_dest_set (cache : DestCache) (key value : String) : DestCache :=
  (key, value) :: cache.filter (fun e => !(e.1 == key))

/-- List-of-characters whole-word lead test used to model str.startswith. -/
def charsLead : List Char → List Char → Bool
| [], _ => true
| _ :: _, [] => false
| a :: as, b :: bs => a == b && charsLead as bs

/-- Python str.startswith(p) on s. -/
def str_startswith (p s : String) : Bool :=
  charsLead p.data s.data

/-- Fold step of GROUP BY slave_origin_uid with MAX(time): first-appearance
order of groups, maximum timestamp per group. -/
def bumpGroup : List (String × Nat) → String → Nat → List (String × Nat)
| [], uid, t => [(uid, t)]
| (u, m) :: rest, uid, t =>
  if u == uid then (u, max m t) :: rest
  else (u, m) :: bumpGroup rest uid t

/-- Grouping of rows by slave_origin_uid with the maximum time of each. -/
def groupMaxTime (rows : List MsgLog) : List (String × Nat) :=
  rows.foldl (fun acc r => bumpGroup acc r.slave_origin_uid r.time) []

/-- Insertion step of a stable sort by time descending. -/
def insertByTimeDesc (p : String × Nat) : List (String × Nat) → List (String × Nat)
| [] => [p]
| q :: rest => if p.2 ≥ q.2 then p :: q :: rest else q :: insertByTimeDesc p rest

/-- Stable sort by time descending (ORDER BY MAX(time) DESC; SQLite leaves
tie order unspecified, modelled as first-appearance order). -/
def sortByTimeDesc (l : List (String × Nat)) : List (String × Nat) :=
  l.foldr insertByTimeDesc []

/-- Embedding of DatabaseManager.get_recent_slave_chats (db.py lines
379-388): distinct slave origins of rows whose master_msg_id starts with
the master chat id and a dot, ordered by most recent activity, limited. -/
def get_recent_slave_chats (db : List MsgLog) (master_chat_id : String)
    (limit : Nat) : List String :=
  ((sortByTimeDesc (groupMaxTime (db.filter
      (fun r => str_startswith (master_chat_id ++ ".") r.master_msg_id)))).map
    (fun p => p.1)).take limit

/-- Outcome of the destination-resolution phase of
MasterMessageProcessor.msg (master_message.py lines 129-196):
rejectEdit models the ME01 error reply and early return; process models
the call to process_telegram_message with the resolved destination, the
quote flag and the old record for edits; suggest models the MS01 error
reply with candidate suggestions registered; giveUpNoCandidates models the
MS02 error reply.  On every outcome other than process, nothing is
dispatched to any slave channel and nothing is logged. -/
inductive MsgDecision where
| rejectEdit
| process (destination : String) (quote : Bool) (edited : Option MsgLog)
| suggest (candidates : List String)
| giveUpNoCandidates
deriving DecidableEq

/-- Inbound Telegram update as seen by MasterMessageProcessor.msg: the
effective chat id and message id (stringified), whether the update is an
edited message or edited channel post, and the chat id and message id of
the reply-to message when present. -/
structure TgUpdate where
  chat_id : String
  message_id : String
  is_edited : Bool
  reply_to : Option (String × String)
deriving DecidableEq

/-- Candidate computation of master_message.py lines 181-194: recent slave
chats of this Telegram chat (limit 5) or, when that list is empty, the
first five linked chats; with candidates the MS01 prompt is shown,
without them MS02. -/
def msg_fallback (chats : List String) (msg_db : List MsgLog)
    (chat_id : String) : MsgDecision :=
  let recents := get_recent_slave_chats msg_db chat_id 5
  let candidates := if recents.isEmpty then chats.take 5 else recents
  if candidates.isEmpty then MsgDecision.giveUpNoCandidates
  else MsgDecision.suggest candidates

/-- Embedding of the destination resolution of MasterMessageProcessor.msg
(master_message.py lines 129-196).  Order of evaluation: the edit branch
(lines 142-149), the singly-linked check (lines 151-153 and 198-206), the
reply lookup and cache branch (lines 155-172, notice the elif: a reply
whose target record is absent does not consult the cache), and the
candidate fallback (lines 179-194).  Returns the decision and the
resulting Recent-Destination Cache state. -/
def msg_resolve (channel_id : String) (chat_db : ChatDB)
    (msg_db : List MsgLog) (cache : DestCache) (u : TgUpdate) :
    Except String (MsgDecision × DestCache) :=
  if u.is_edited then
    match get_msg_log (some (message_id_to_str u.chat_id u.message_id))
        none none msg_db with
    | Except.error e => Except.error e
    | Except.ok none => Except.ok (MsgDecision.rejectEdit, cache)
    | Except.ok (some r) =>
      if r.slave_message_id == FAIL_FLAG then
        Except.ok (MsgDecision.rejectEdit, cache)
      else
        Except.ok
          (MsgDecision.process r.slave_origin_uid u.reply_to.isSome (some r),
            cache)
  else
    match get_chat_assoc (some (chat_id_to_str channel_id u.chat_id))
        none chat_db with
    | Except.error e => Except.error e
    | Except.ok [c] =>
      Except.ok (MsgDecision.process c u.reply_to.isSome none, cache)
    | Except.ok chats =>
      match u.reply_to with
      | some (rc, rm) =>
        match get_msg_log (some (message_id_to_str rc rm)) none none msg_db with
        | Except.error e => Except.error e
        | Except.ok (some dmsg) =>
          Except.ok (MsgDecision.process dmsg.slave_origin_uid false none,
            chat_dest_set cache u.chat_id dmsg.slave_origin_uid)
        | Except.ok none =>
          Except.ok (msg_fallback chats msg_db u.chat_id, cache)
      | none =>
        match chat_dest_get cache u.chat_id with
        | some d => Except.ok (MsgDecision.process d false none, cache)
        | none => Except.ok (msg_fallback chats msg_db u.chat_id, cache)

/-- Plain message record builder for concrete inputs in witnesses. -/
def mkMsgRow (master slaveMsg origin : String) (t : Nat) : MsgLog :=
  { master_msg_id := master
    master_msg_id_alt := none
    slave_message_id := slaveMsg
    text := ""
    slave_origin_uid := origin
    slave_origin_display_name := none
    slave_member_uid := none
    slave_member_display_name := none
    media_type := none
    mime := none
    file_id := none
    msg_type := "Text"
    sent_to := "slave"
    time := t }

/-- C4: for an inbound edit event, the pipeline looks the record up by
master_msg_id; when no record exists or its slave_message_id is the
pending sentinel, the decision is rejectEdit (the ME01 error reply, with
nothing relayed to any slave); otherwise the destination is the record's
slave_origin_uid. -/
theorem msg_edit_resolution (channel_id : String) (chat_db : ChatDB)
    (msg_db : List MsgLog) (cache : DestCache) (u : TgUpdate)
    (he : u.is_edited = true) :
    (get_msg_log (some (message_id_to_str u.chat_id u.message_id)) none none
        msg_db = Except.ok none →
      msg_resolve channel_id chat_db msg_db cache u
        = Except.ok (MsgDecision.rejectEdit, cache))
    ∧ (∀ r : MsgLog,
        get_msg_log (some (message_id_to_str u.chat_id u.message_id)) none none
          msg_db = Except.ok (some r) →
        r.slave_message_id = FAIL_FLAG →
        msg_resolve channel_id chat_db msg_db cache u
          = Except.ok (MsgDecision.rejectEdit, cache))
    ∧ (∀ r : MsgLog,
        get_msg_log (some (message_id_to_str u.chat_id u.message_id)) none none
          msg_db = Except.ok (some r) →
        r.slave_message_id ≠ FAIL_FLAG →
        msg_resolve channel_id chat_db msg_db cache u
          = Except.ok
            (MsgDecision.process r.slave_origin_uid u.reply_to.isSome (some r),
              cache)) := by
  refine ⟨?_, ?_, ?_⟩
  · intro h
    simp [msg_resolve, he, h]
  · intro r h hff
    simp [msg_resolve, he, h, hff]
  · intro r h hff
    simp [msg_resolve, he, h, hff]

/-- Witness for C4: a sentinel-flagged record is rejected, a delivered
record resolves to its slave_origin_uid. -/
theorem msg_edit_resolution_witness :
    msg_resolve "tg" [] [mkMsgRow "1.5" FAIL_FLAG "wa.200" 1] []
        { chat_id := "1", message_id := "5", is_edited := true, reply_to := none }
      = Except.ok (MsgDecision.rejectEdit, [])
    ∧ msg_resolve "tg" [] [mkMsgRow "1.5" "s.1" "wa.200" 1] []
        { chat_id := "1", message_id := "5", is_edited := true, reply_to := none }
      = Except.ok
        (MsgDecision.process "wa.200" false
          (some (mkMsgRow "1.5" "s.1" "wa.200" 1)), []) :=
  ⟨(msg_edit_resolution "tg" [] [mkMsgRow "1.5" FAIL_FLAG "wa.200" 1] []
      { chat_id := "1", message_id := "5", is_edited := true, reply_to := none }
      rfl).2.1 (mkMsgRow "1.5" FAIL_FLAG "wa.200" 1) (by decide) rfl,
   (msg_edit_resolution "tg" [] [mkMsgRow "1.5" "s.1" "wa.200" 1] []
      { chat_id := "1", message_id := "5", is_edited := true, reply_to := none }
      rfl).2.2 (mkMsgRow "1.5" "s.1" "wa.200" 1) (by decide) (by decide)⟩

/-- C5: with no edit, no single link, no usable reply correlation and no
cached destination, the resolver aborts with the candidate list equal to
the recent slave chats of this Telegram chat when non-empty, else the
first five linked chats; no process outcome is possible on this path. -/
theorem msg_ambiguous_fallback (channel_id : String) (chat_db : ChatDB)
    (msg_db : List MsgLog) (cache : DestCache) (u : TgUpdate)
    (he : u.is_edited = false) (chats : List String)
    (hc : get_chat_assoc (some (chat_id_to_str channel_id u.chat_id)) none
      chat_db = Except.ok chats)
    (hlen : chats.length ≠ 1)
    (hcache : chat_dest_get cache u.chat_id = none)
    (hreply : match u.reply_to with
      | none => True
      | some (rc, rm) =>
        get_msg_log (some (message_id_to_str rc rm)) none none msg_db
          = Except.ok none) :
    msg_resolve channel_id chat_db msg_db cache u
      = Except.ok (msg_fallback chats msg_db u.chat_id, cache)
    ∧ msg_fallback chats msg_db u.chat_id
      = (if (get_recent_slave_chats msg_db u.chat_id 5).isEmpty then
          (if (chats.take 5).isEmpty then MsgDecision.giveUpNoCandidates
           else MsgDecision.suggest (chats.take 5))
         else MsgDecision.suggest (get_recent_slave_chats msg_db u.chat_id 5))
    ∧ (∀ (dest : String) (q : Bool) (e : Option MsgLog),
        msg_fallback chats msg_db u.chat_id ≠ MsgDecision.process dest q e) := by
  refine ⟨?_, ?_, ?_⟩
  · match hch : chats, hlen with
    | [], _ =>
      subst hch
      cases hr : u.reply_to with
      | none =>
        rw [hr] at hreply
        simp [msg_resolve, he, hc, hr, hcache]
      | some p =>
        rw [hr] at hreply
        obtain ⟨rc, rm⟩ := p
        simp [msg_resolve, he, hc, hr, hreply]
    | a :: b :: t, _ =>
      subst hch
      cases hr : u.reply_to with
      | none =>
        rw [hr] at hreply
        simp [msg_resolve, he, hc, hr, hcache]
      | some p =>
        rw [hr] at hreply
        obtain ⟨rc, rm⟩ := p
        simp [msg_resolve, he, hc, hr, hreply]
    | [a], hlen => exact absurd rfl hlen
  · by_cases hrec : (get_recent_slave_chats msg_db u.chat_id 5).isEmpty
    · simp [msg_fallback, hrec]
    · simp [msg_fallback, hrec]
  · intro dest q e
    by_cases hrec : (get_recent_slave_chats msg_db u.chat_id 5).isEmpty <;>
      by_cases htk : (chats.take 5).isEmpty <;>
        simp [msg_fallback, hrec, htk]

/-- Witness for C5: end-to-end scenario with two prior slave chats seen for
the unlinked chat 300, recency order b.2 then a.1. -/
theorem msg_ambiguous_fallback_witness :
    msg_resolve "tg" []
        [mkMsgRow "300.1" "s.1" "a.1" 10, mkMsgRow "300.2" "s.2" "b.2" 20] []
        { chat_id := "300", message_id := "3", is_edited := false,
          reply_to := none }
      = Except.ok (MsgDecision.suggest ["b.2", "a.1"], []) :=
  ((msg_ambiguous_fallback "tg" []
      [mkMsgRow "300.1" "s.1" "a.1" 10, mkMsgRow "300.2" "s.2" "b.2" 20] []
      { chat_id := "300", message_id := "3", is_edited := false,
        reply_to := none }
      rfl [] (by decide) (by decide) (by decide) trivial).1).trans
    (by decide)

/-- C6 counterexample: the chat is not singly linked, the message is a
reply whose target has no correlation record, and the cache holds an entry
for this chat; the code falls through to the candidate path (here MS02,
give up) instead of resolving to the cached destination, because the cache
is consulted only in the elif branch taken when the message is not a
reply (master_message.py lines 160-172). -/
theorem msg_reply_miss_skips_cache :
    msg_resolve "tg" [] [] [("10", "a.1")]
        { chat_id := "10", message_id := "3", is_edited := false,
          reply_to := some ("10", "2") }
      = Except.ok (MsgDecision.giveUpNoCandidates, [("10", "a.1")])
    ∧ msg_resolve "tg" [] [] [("10", "a.1")]
        { chat_id := "10", message_id := "3", is_edited := false,
          reply_to := some ("10", "2") }
      ≠ Except.ok (MsgDecision.process "a.1" false none, [("10", "a.1")]) := by
  constructor
  · decide
  · decide

/-- C6 (amended): with no edit and no single link, a message that is not a
reply resolves to the cached destination when the Recent-Destination Cache
holds an entry for this chat; a reply whose target record is absent
bypasses the cache and falls through to the disambiguation path. -/
theorem msg_cached_destination (channel_id : String) (chat_db : ChatDB)
    (msg_db : List MsgLog) (cache : DestCache) (u : TgUpdate)
    (he : u.is_edited = false) (chats : List String)
    (hc : get_chat_assoc (some (chat_id_to_str channel_id u.chat_id)) none
      chat_db = Except.ok chats)
    (hlen : chats.length ≠ 1) (d : String)
    (hcache : chat_dest_get cache u.chat_id = some d) :
    (u.reply_to = none →
      msg_resolve channel_id chat_db msg_db cache u
        = Except.ok (MsgDecision.process d false none, cache))
    ∧ (∀ rc rm : String, u.reply_to = some (rc, rm) →
        get_msg_log (some (message_id_to_str rc rm)) none none msg_db
          = Except.ok none →
        msg_resolve channel_id chat_db msg_db cache u
          = Except.ok (msg_fallback chats msg_db u.chat_id, cache)) := by
  constructor
  · intro hr
    match hch : chats, hlen with
    | [], _ =>
      subst hch
      simp [msg_resolve, he, hc, hr, hcache]
    | a :: b :: t, _ =>
      subst hch
      simp [msg_resolve, he, hc, hr, hcache]
    | [a], hlen => exact absurd rfl hlen
  · intro rc rm hr hmiss
    match hch : chats, hlen with
    | [], _ =>
      subst hch
      simp [msg_resolve, he, hc, hr, hmiss]
    | a :: b :: t, _ =>
      subst hch
      simp [msg_resolve, he, hc, hr, hmiss]
    | [a], hlen => exact absurd rfl hlen

/-- Witness for the amended C6 theorem: cached destination used when the
message is not a reply. -/
theorem msg_cached_destination_witness :
    msg_resolve "tg" [] [] [("10", "a.1")]
        { chat_id := "10", message_id := "3", is_edited := false,
          reply_to := none }
      = Except.ok (MsgDecision.process "a.1" false none, [("10", "a.1")]) :=
  (msg_cached_destination "tg" [] [] [("10", "a.1")]
      { chat_id := "10", message_id := "3", is_edited := false,
        reply_to := none }
      rfl [] (by decide) (by decide) "a.1" (by decide)).1 rfl

/-- Leading characters of a composite identifier up to the first dot. -/
def takeUntilDot : List Char → List Char
| [] => []
| c :: rest => if c == '.' then [] else c :: takeUntilDot rest

/-- Characters after the first dot, none when no dot occurs. -/
def dropThroughDot : List Char → Option (List Char)
| [] => none
| c :: rest => if c == '.' then some rest else dropThroughDot rest

/-- Modelled from the spec: the channel component extracted by
utils.chat_id_str_to_id (the utils module is not among the available
files; db.py line 113 documents the composite format channel_id.chat_id). -/
def chat_id_str_to_channel (s : String) : String :=
  String.mk (takeUntilDot s.data)

/-- Modelled from the spec: utils.message_id_str_to_id, parsing
chat_id.msg_id into its components, None when malformed (no dot). -/
def message_id_str_to_id (s : String) : Option (String × String) :=
  match dropThroughDot s.data with
  | none => none
  | some rest => some (String.mk (takeUntilDot s.data), String.mk rest)

/-- Embedding of the reply-target resolution of
SlaveMessageProcessor.dispatch_message (slave_message.py lines 123-142):
the target record is fetched by the target's (slave_message_id,
slave_origin_uid); the quoted Telegram message id is produced only when
the record exists, its master_msg_id parses, and its chat component equals
the current Telegram destination chat; in every none outcome dispatch
continues and the message is still sent. -/
def dispatch_reply_target (msg_db : List MsgLog)
    (target_uid target_origin tg_dest : String) : Except String (Option String) :=
  match get_msg_log none (some target_uid) (some target_origin) msg_db with
  | Except.error e => Except.error e
  | Except.ok none => Except.ok none
  | Except.ok (some log) =>
    match message_id_str_to_id log.master_msg_id with
    | none => Except.ok none
    | some tm =>
      if tm.1 == tg_dest then Except.ok (some tm.2) else Except.ok none

/-- Embedding of MasterMessageProcessor.attach_target_message
(master_message.py lines 392-413): the quoted message is fetched by the
reply's master_msg_id; the target is attached only when the record exists,
carries a truthy slave_origin_uid, and the channel component of that uid
equals the destination channel; otherwise the message is returned without
a target (quote dropped, message still sent). -/
def attach_target_message (msg_db : List MsgLog)
    (reply_chat_id reply_msg_id channel : String) :
    Except String (Option MsgLog) :=
  match get_msg_log (some (message_id_to_str reply_chat_id reply_msg_id))
      none none msg_db with
  | Except.error e => Except.error e
  | Except.ok none => Except.ok none
  | Except.ok (some log) =>
    if log.slave_origin_uid == "" then Except.ok none
    else if chat_id_str_to_channel log.slave_origin_uid == channel then
      Except.ok (some log)
    else Except.ok none

/-- C7: in both directions a reply whose stored target belongs to a channel
other than the current destination never produces a quoted-message id or
target attachment: outbound, a target record whose master_msg_id parses to
a chat different from the Telegram destination yields no quote id;
inbound, a target record whose slave_origin_uid has a channel component
different from the destination channel attaches no target.  The none
outcome leaves dispatch running, so the message itself is still sent. -/
theorem quote_cross_channel_guard :
    (∀ (msg_db : List MsgLog) (tu torig dest : String) (log : MsgLog)
        (c m : String),
        get_msg_log none (some tu) (some torig) msg_db = Except.ok (some log) →
        message_id_str_to_id log.master_msg_id = some (c, m) →
        c ≠ dest →
        dispatch_reply_target msg_db tu torig dest = Except.ok none)
    ∧ (∀ (msg_db : List MsgLog) (rc rm ch : String) (log : MsgLog),
        get_msg_log (some (message_id_to_str rc rm)) none none msg_db
          = Except.ok (some log) →
        chat_id_str_to_channel log.slave_origin_uid ≠ ch →
        attach_target_message msg_db rc rm ch = Except.ok none) := by
  constructor
  · intro msg_db tu torig dest log c m hlog hparse hne
    simp [dispatch_reply_target, hlog, hparse, hne]
  · intro msg_db rc rm ch log hlog hne
    by_cases horig : log.slave_origin_uid == ""
    · simp [attach_target_message, hlog, horig]
    · simp [attach_target_message, hlog, horig, hne]

/-- Witness for C7: a record of Telegram chat 1 quoted from destination
chat 2 yields no quote id; a record from channel wa quoted toward channel
irc attaches no target. -/
theorem quote_cross_channel_guard_witness :
    dispatch_reply_target [mkMsgRow "1.5" "s.1" "wa.200" 1] "s.1" "wa.200" "2"
      = Except.ok none
    ∧ attach_target_message [mkMsgRow "1.5" "s.1" "wa.200" 1] "1" "5" "irc"
      = Except.ok none :=
  ⟨quote_cross_channel_guard.1 [mkMsgRow "1.5" "s.1" "wa.200" 1]
      "s.1" "wa.200" "2" (mkMsgRow "1.5" "s.1" "wa.200" 1) "1" "5"
      (by decide) (by decide) (by decide),
   quote_cross_channel_guard.2 [mkMsgRow "1.5" "s.1" "wa.200" 1]
      "1" "5" "irc" (mkMsgRow "1.5" "s.1" "wa.200" 1)
      (by decide) (by decide)⟩

/-- Python inequality of slave_message.py line 229 between old_msg_id, a
(chat id, message id) tuple, and tg_msg.message_id, a bare message id: in
Python a tuple compared with a non-tuple is never equal, so the test is
True whatever the components hold. -/
def pyTupleNeqScalar (_ : String × String) (_ : String) : Bool := true

/-- Embedding of the correlation-log identity fields computed by
SlaveMessageProcessor.dispatch_message (slave_message.py lines 213-231):
master_msg_id defaults to the rendered message id with master_msg_id_alt
None; when an edit target old_msg_id was resolved and the line 229
comparison passes, master_msg_id becomes the edit-target id and
master_msg_id_alt the rendered message id. -/
def dispatch_log_ids (old_msg_id : Option (String × String))
    (tg_chat_id tg_msg_id : String) : String × Option String :=
  match old_msg_id with
  | none => (message_id_to_str tg_chat_id tg_msg_id, none)
  | some o =>
    if pyTupleNeqScalar o tg_msg_id then
      (message_id_to_str o.1 o.2, some (message_id_to_str tg_chat_id tg_msg_id))
    else (message_id_to_str tg_chat_id tg_msg_id, none)

/-- C8: at an in-place edit — the rendered message keeps chat id 1 and
message id 5, equal to the resolved edit target ("1", "5") —
master_msg_id_alt is populated with "1.5" instead of staying null, because
slave_message.py line 229 compares the (chat, message id) tuple with the
bare message id, a comparison that is always unequal in Python. -/
theorem dispatch_log_ids_inplace_edit_sets_alt :
    dispatch_log_ids (some ("1", "5")) "1" "5" = ("1.5", some "1.5")
    ∧ (("1.5", some "1.5") : String × Option String) ≠ ("1.5", none) := by
  constructor
  · decide
  · decide

/-- Queue item consumed by the master message worker: the update and
context pair, reduced to what the worker inspects — whether
update.effective_message is present, and an identity tag. -/
structure QItem where
  hasEffectiveMessage : Bool
  uid : Nat
deriving DecidableEq

/-- Observable step of the worker loop: normal processing, a caught
exception answered with an error reply, a caught exception only logged
(no effective message to reply to), or the poison-value return. -/
inductive WorkerEvent where
| processed (uid : Nat)
| caughtReported (uid : Nat) (err : String)
| caughtLogged (uid : Nat) (err : String)
| stopped
deriving DecidableEq

/-- Body of one worker iteration (master_message.py lines 101-113): msg is
attempted inside try; an exception is caught and logged with
logger.exception, and the error reply is sent only when the update
carries an effective message. -/
def worker_event (proc : QItem → Except String Unit) (it : QItem) :
    WorkerEvent :=
  match proc it with
  | Except.ok _ => WorkerEvent.processed it.uid
  | Except.error e =>
    if it.hasEffectiveMessage then WorkerEvent.caughtReported it.uid e
    else WorkerEvent.caughtLogged it.uid e

/-- Embedding of MasterMessageProcessor.message_worker (master_message.py
lines 94-113) on a finite queue prefix: none models the poison value that
ends the loop after task_done; every other item is processed inside
try/except/finally and the loop continues with the next item. -/
def message_worker (proc : QItem → Except String Unit) :
    List (Option QItem) → List WorkerEvent
| [] => []
| none :: _ => [WorkerEvent.stopped]
| some it :: rest => worker_event proc it :: message_worker proc rest

lemma worker_event_ne_stopped (proc : QItem → Except String Unit)
    (it : QItem) : worker_event proc it ≠ WorkerEvent.stopped := by
  cases hp : proc it with
  | ok v => simp [worker_event, hp]
  | error e =>
    by_cases hm : it.hasEffectiveMessage <;> simp [worker_event, hp, hm]

/-- C9 counterexample: an item whose update has no effective message and
whose processing raises is caught and logged and the worker moves on, but
no error reply is sent to any conversation (the reply at master_message.py
line 108 is guarded by the line 107 check), so the claim that every caught
exception is reported back is false at this input. -/
theorem message_worker_unreported_exception :
    message_worker (fun _ => Except.error "boom") [some ⟨false, 7⟩]
      = [WorkerEvent.caughtLogged 7 "boom"]
    ∧ WorkerEvent.caughtReported 7 "boom" ∉
        message_worker (fun _ => Except.error "boom") [some ⟨false, 7⟩] := by
  constructor
  · rfl
  · decide

/-- C9 (amended): the worker consumes every queued item whatever the
processing outcomes: each item yields exactly one event, never the
stopped event (the worker thread never terminates because of a processing
exception), and a caught exception is answered with an error reply to the
originating conversation whenever the update carries an effective
message; with no effective message it is only logged. -/
theorem message_worker_catches_and_continues
    (proc : QItem → Except String Unit) (items : List QItem) :
    message_worker proc (items.map some) = items.map (worker_event proc)
    ∧ WorkerEvent.stopped ∉ items.map (worker_event proc)
    ∧ (∀ (it : QItem) (e : String), proc it = Except.error e →
        it.hasEffectiveMessage = true →
        worker_event proc it = WorkerEvent.caughtReported it.uid e) := by
  refine ⟨?_, ?_, ?_⟩
  · induction items with
    | nil => rfl
    | cons a t ih => simp [message_worker, ih]
  · intro hmem
    rw [List.mem_map] at hmem
    obtain ⟨it, _, hev⟩ := hmem
    exact worker_event_ne_stopped proc it hev
  · intro it e hp hm
    simp [worker_event, hp, hm]

/-- Witness for the amended C9 theorem: a failing first item is reported
and the second item is still processed. -/
theorem message_worker_catches_and_continues_witness :
    message_worker (fun it => if it.uid == 0 then Except.error "E" else Except.ok ())
        [some ⟨true, 0⟩, some ⟨true, 1⟩]
      = [WorkerEvent.caughtReported 0 "E", WorkerEvent.processed 1]
    ∧ worker_event
        (fun it => if it.uid == 0 then Except.error "E" else Except.ok ())
        ⟨true, 0⟩
      = WorkerEvent.caughtReported 0 "E" :=
  ⟨((message_worker_catches_and_continues
        (fun it => if it.uid == 0 then Except.error "E" else Except.ok ())
        [⟨true, 0⟩, ⟨true, 1⟩]).1).trans (by decide),
   (message_worker_catches_and_continues
        (fun it => if it.uid == 0 then Except.error "E" else Except.ok ())
        [⟨true, 0⟩, ⟨true, 1⟩]).2.2 ⟨true, 0⟩ "E" (by decide) rfl⟩

end ETM
